import Mathlib

/-
Verification development for the proxmox-orchestrator repository
(src/daemons/psm_sync_daemon.py, src/daemons/afc_sync_daemon.py,
src/daemons/proxmox_discovery_daemon.py).

The Python sources are shallowly embedded below: the config parser is
modelled line by line over character lists with Python string semantics,
the diff engine and execution order are modelled as pure functions over
finite sets, and one reconciliation-cycle iteration of each sync daemon is
modelled as a function from oracle inputs (HTTP responses, environment)
to an outcome plus the list of network calls issued.
-/

/-- Python str.strip() whitespace class (the characters stripped by strip
and used by split with a None separator). -/
def isPySpace (c : Char) : Bool :=
  c == ' ' || c == '\t' || c == '\n' || c == '\r' || c == '\x0b' || c == '\x0c'

/-- Python str.strip() on a character list. -/
def pyStripL (s : List Char) : List Char :=
  ((s.dropWhile isPySpace).reverse.dropWhile isPySpace).reverse

/-- Python str.strip() on a string. -/
def pyStrip (s : String) : String :=
  String.mk (pyStripL s.data)

/-- Python line.startswith((space, tab)) used for the indentation test in
parse_pve_config. -/
def startsWithWs (s : String) : Bool :=
  match s.data with
  | [] => false
  | c :: _ => c == ' ' || c == '\t'

/-- Python stripped_line.split(colon, 1): splits at the first colon;
returns none when the line has no colon (len(parts) == 1). -/
def splitFirstColon : List Char → Option (List Char × List Char)
  | [] => none
  | c :: cs =>
      if c = ':' then some ([], cs)
      else (splitFirstColon cs).map (fun p => (c :: p.1, p.2))

/-- Python stripped_line.split(None, 1) on an already left-stripped line:
first whitespace-free word, and the remainder after the whitespace run;
none when there is no remainder (len(parts) == 1). -/
def splitWs1 (s : List Char) : Option (List Char × List Char) :=
  let w := s.takeWhile (fun c => !isPySpace c)
  let r := (s.dropWhile (fun c => !isPySpace c)).dropWhile isPySpace
  if r.isEmpty then none else some (w, r)

/-- Digit run of a Python base-10 integer literal, allowing single
underscores between digits; prevU records that the previous character was
an underscore. -/
def pyDigitsCore (prevU : Bool) (acc : Nat) : List Char → Option Nat
  | [] => if prevU then none else some acc
  | c :: cs =>
      if c.isDigit then pyDigitsCore false (acc * 10 + (c.toNat - 48)) cs
      else if c = '_' then (if prevU then none else pyDigitsCore true acc cs)
      else none

/-- Nonempty digit run starting a Python integer literal. -/
def pyDigits : List Char → Option Nat
  | [] => none
  | c :: cs => if c.isDigit then pyDigitsCore false (c.toNat - 48) cs else none

/-- Python int(value) on an already stripped string: optional sign, then
digits; none models a ValueError. -/
def pyIntL (s : List Char) : Option Int :=
  match s with
  | '+' :: rest => (pyDigits rest).map Int.ofNat
  | '-' :: rest => (pyDigits rest).map (fun n => -(n : Int))
  | _ => (pyDigits s).map Int.ofNat

/-- Python int(value) on a string. -/
def pyIntOfStr (s : String) : Option Int :=
  pyIntL s.data

/-- Python truthiness of an optional string: none and the empty string are
falsy (used by the env-var fallback chains written with the or operator). -/
def truthy : Option String → Option String
  | some s => if s = "" then none else some s
  | none => none

/-- A parsed config value: strings pass through, integer-typed keys are
int(value), boolean-typed keys are bool(int(value)). -/
inductive CVal where
  | s (v : String)
  | i (v : Int)
  | b (v : Bool)
deriving DecidableEq

/-- One target section of the parsed config: the type tag from the section
header plus the key/value pairs of its indented lines. -/
structure PTarget where
  typ : String
  attrs : List (String × CVal)
deriving DecidableEq

/-- The whole parsed config: the ids dictionary, as an association list
with unique keys in insertion order. -/
structure PConfig where
  ids : List (String × PTarget)
deriving DecidableEq

/-- Python config.get(ids).get(id): the target stored under an id. -/
def lookupId (cfg : PConfig) (id : String) : Option PTarget :=
  (cfg.ids.find? (fun p => p.1 == id)).map (fun p => p.2)

/-- Python target.get(key): attribute lookup inside one target section. -/
def lookupAttr (t : PTarget) (k : String) : Option CVal :=
  (t.attrs.find? (fun p => p.1 == k)).map (fun p => p.2)

/-- Dictionary write d(k) := v on an association list with unique keys:
overwrite in place when present, append otherwise. -/
def setKV (l : List (String × CVal)) (k : String) (v : CVal) :
    List (String × CVal) :=
  if l.any (fun p => p.1 == k) then
    l.map (fun p => if p.1 == k then (k, v) else p)
  else l ++ [(k, v)]

/-- config(ids)(id)(key) := v for the section currently open. -/
def setAttr (cfg : PConfig) (id : String) (k : String) (v : CVal) : PConfig :=
  ⟨cfg.ids.map (fun p => if p.1 == id then (p.1, ⟨p.2.typ, setKV p.2.attrs k v⟩) else p)⟩

/-- Section-header handling: if current_id not in config(ids), add a fresh
entry carrying the section type; an existing entry is left untouched. -/
def addSection (cfg : PConfig) (id : String) (typ : String) : PConfig :=
  if cfg.ids.any (fun p => p.1 == id) then cfg
  else ⟨cfg.ids ++ [(id, ⟨typ, []⟩)]⟩

/-- Parser state: the config built so far plus the id of the currently
open section (the empty string models the Python falsy values None and
the empty id). The err state models an uncaught exception escaping the
line loop of parse_pve_config. -/
inductive PStep where
  | ok (cfg : PConfig) (currentId : String)
  | err
deriving DecidableEq

/-- Integer-typed keys of the PSM daemon parser. -/
def psmIntKeys : List String :=
  ["port", "poll_interval_seconds", "request_timeout"]

/-- Integer-typed keys of the AFC daemon parser (adds management_vlan). -/
def afcIntKeys : List String :=
  ["port", "poll_interval_seconds", "request_timeout", "management_vlan"]

/-- Boolean-typed keys shared by both parsers. -/
def boolKeys : List String :=
  ["enabled", "verify_ssl"]

/-- One line of parse_pve_config, common to both daemons up to the list of
integer-typed keys. Mirrors the source control flow: skip blank and
comment lines; a non-indented line with a colon opens (or re-enters) a
section; an indented line under a truthy current id stores a key/value
pair, where a non-integer value under an integer-typed key is skipped
(the except ValueError continue) but a non-integer value under a
boolean-typed key raises out of the loop (bool(int(value)) is not guarded). -/
def parseStep (intKeys : List String) (s : PStep) (line : String) : PStep :=
  match s with
  | .err => .err
  | .ok cfg cid =>
    let stripped := pyStrip line
    if stripped = "" ∨ stripped.data.head? = some '#' then .ok cfg cid
    else if !startsWithWs line then
      match splitFirstColon stripped.data with
      | some (t, i) =>
          let typ := String.mk (pyStripL t)
          let cid2 := String.mk (pyStripL i)
          .ok (addSection cfg cid2 typ) cid2
      | none => .ok cfg cid
    else if cid = "" then .ok cfg cid
    else
      match splitWs1 stripped.data with
      | none => .ok cfg cid
      | some (k, r) =>
          let key := String.mk k
          let v := String.mk (pyStripL r)
          if key ∈ intKeys then
            match pyIntOfStr v with
            | some n => .ok (setAttr cfg cid key (.i n)) cid
            | none => .ok cfg cid
          else if key ∈ boolKeys then
            match pyIntOfStr v with
            | some n => .ok (setAttr cfg cid key (.b (n ≠ 0))) cid
            | none => .err
          else .ok (setAttr cfg cid key (.s v)) cid

/-- Run the parser over the lines of the config file (each line already
stripped of its trailing newline, as by rstrip). -/
def runParse (intKeys : List String) (lines : List String) : PStep :=
  lines.foldl (parseStep intKeys) (.ok ⟨[]⟩ "")

/-- PSM parse_pve_config over the lines of an existing file: an exception
during parsing is caught and an empty ids map is returned. -/
def psmParseLines (lines : List String) : PConfig :=
  match runParse psmIntKeys lines with
  | .ok cfg _ => cfg
  | .err => ⟨[]⟩

/-- AFC parse_pve_config over the lines of an existing file: an exception
during parsing calls sys.exit(1), modelled as error 1. -/
def afcParseLines (lines : List String) : Except Nat PConfig :=
  match runParse afcIntKeys lines with
  | .ok cfg _ => .ok cfg
  | .err => .error 1

/-- PSM parse_pve_config at file level: a missing or unreadable file is
caught and an empty ids map is returned; the function has no exit path,
which the Except type makes visible (it always returns ok). -/
def psmParseFileE (file : Option (List String)) : Except Nat PConfig :=
  match file with
  | none => .ok ⟨[]⟩
  | some lines => .ok (psmParseLines lines)

/-- PSM parse_pve_config at file level, as the plain config the callers
see. -/
def psmParseFileCfg (file : Option (List String)) : PConfig :=
  match file with
  | none => ⟨[]⟩
  | some lines => psmParseLines lines

/-- AFC parse_pve_config at file level: a missing or unreadable file calls
sys.exit(1), modelled as error 1, at every call site (startup loop and
worker cycle alike). -/
def afcParseFile (file : Option (List String)) : Except Nat PConfig :=
  match file with
  | none => .error 1
  | some lines => afcParseLines lines

/-- A desired network segment from the source of truth: the VNET name and
the zone (routing domain) it is bound to. -/
structure VnetSpec where
  vnet : String
  zone : String
deriving DecidableEq

/-- A Python dict keyed by integer VLAN tag: the key set plus the value at
each key (meaningful on the key set). -/
structure TagMap (α : Type) where
  tags : Finset Nat
  val : Nat → α

/-- DesiredState fetched from the source of truth: zone names and the
orchestratable tagged segments. -/
structure Desired where
  zones : Finset String
  segs : TagMap VnetSpec

/-- A current network on the PSM side: its virtual router and its name. -/
structure PsmNet where
  vrf : String
  name : String
deriving DecidableEq

/-- A current VLAN on the AFC side: vrf, vlan_name, uuid. -/
structure AfcVlan where
  vrf : String
  name : String
  uuid : String
deriving DecidableEq

/-- PSM daemon: zones_to_create = desired_zones - current_vrfs - reserved_zones. -/
def psmZonesToCreate (d : Desired) (vrfs : Finset String) (rz : Finset String) :
    Finset String :=
  (d.zones \ vrfs) \ rz

/-- PSM daemon: zones_to_delete = current_vrfs - desired_zones - reserved_zones. -/
def psmZonesToDelete (d : Desired) (vrfs : Finset String) (rz : Finset String) :
    Finset String :=
  (vrfs \ d.zones) \ rz

/-- PSM daemon: desired_vnets_filtered, keeping the tags not in
reserved_vlans whose zone is not in reserved_zones. -/
def psmFilteredTags (d : Desired) (rz : Finset String) (rv : Finset Nat) :
    Finset Nat :=
  d.segs.tags.filter (fun t => t ∉ rv ∧ (d.segs.val t).zone ∉ rz)

/-- PSM daemon: vnets_to_create, the filtered desired tags absent from the
current networks. -/
def psmVnetsToCreate (d : Desired) (netTags : Finset Nat)
    (rz : Finset String) (rv : Finset Nat) : Finset Nat :=
  (psmFilteredTags d rz rv).filter (fun t => t ∉ netTags)

/-- PSM daemon: vnets_to_delete, the current network tags absent from the
filtered desired set. -/
def psmVnetsToDelete (d : Desired) (netTags : Finset Nat)
    (rz : Finset String) (rv : Finset Nat) : Finset Nat :=
  netTags.filter (fun t => t ∉ psmFilteredTags d rz rv)

/-- AFC daemon: zones_to_create = desired_zones keys - current_vrfs keys -
reserved_zones. -/
def afcZonesToCreate (d : Desired) (vrfs : Finset String) (rz : Finset String) :
    Finset String :=
  (d.zones \ vrfs) \ rz

/-- AFC daemon: zones_to_delete = current_vrfs keys - desired_zones keys -
reserved_zones. -/
def afcZonesToDelete (d : Desired) (vrfs : Finset String) (rz : Finset String) :
    Finset String :=
  (vrfs \ d.zones) \ rz

/-- AFC daemon: desired_vlan_ids, the desired tags not in reserved_vlans
whose zone is not in reserved_zones. -/
def afcDesiredVlanIds (d : Desired) (rz : Finset String) (rv : Finset Nat) :
    Finset Nat :=
  d.segs.tags.filter (fun t => t ∉ rv ∧ (d.segs.val t).zone ∉ rz)

/-- AFC daemon: vlans_to_create = desired_vlan_ids - current_vlans keys. -/
def afcVlansToCreate (d : Desired) (vlanTags : Finset Nat)
    (rz : Finset String) (rv : Finset Nat) : Finset Nat :=
  afcDesiredVlanIds d rz rv \ vlanTags

/-- AFC daemon: vlans_to_delete = current_vlans keys - desired_vlan_ids. -/
def afcVlansToDelete (d : Desired) (vlanTags : Finset Nat)
    (rz : Finset String) (rv : Finset Nat) : Finset Nat :=
  vlanTags \ afcDesiredVlanIds d rz rv

/-- One operation of an execution pass over a reconciliation plan. The
refetchZones marker stands for the re-fetch of actual routing domains the
AFC daemon performs after creating VRFs. -/
inductive Op where
  | createZone (z : String)
  | deleteZone (z : String)
  | createNet (tag : Nat)
  | deleteNet (tag : Nat)
  | refetchZones
deriving DecidableEq

/-- PSM sync_psm_target execution pass, in source order: create virtual
routers, delete virtual routers, create networks (each gated on its zone
being a current VRF or a VRF created this cycle), delete networks. Each
listed operation corresponds to one manage_psm_resource call, which always
logs the action. There is no re-fetch in the PSM daemon. -/
def psmTrace (d : Desired) (vrfs : Finset String) (netTags : Finset Nat)
    (rz : Finset String) (rv : Finset Nat) : List Op :=
  ((psmZonesToCreate d vrfs rz).sort (· ≤ ·) |>.map Op.createZone)
    ++ ((psmZonesToDelete d vrfs rz).sort (· ≤ ·) |>.map Op.deleteZone)
    ++ (((psmVnetsToCreate d netTags rz rv).filter
          (fun t => (d.segs.val t).zone ∈ vrfs ∨
            (d.segs.val t).zone ∈ psmZonesToCreate d vrfs rz)).sort (· ≤ ·) |>.map Op.createNet)
    ++ ((psmVnetsToDelete d netTags rz rv).sort (· ≤ ·) |>.map Op.deleteNet)

/-- Every operation the PSM pass prints an action line for (printing
happens before the dry-run early return, so it is independent of dry-run). -/
def psmLogActions (d : Desired) (vrfs : Finset String) (netTags : Finset Nat)
    (rz : Finset String) (rv : Finset Nat) : List Op :=
  psmTrace d vrfs netTags rz rv

/-- The mutating HTTP calls the PSM pass issues: none under dry-run,
otherwise one per listed operation. -/
def psmMutationOps (d : Desired) (vrfs : Finset String) (netTags : Finset Nat)
    (rz : Finset String) (rv : Finset Nat) (dryRun : Bool) : List Op :=
  if dryRun then [] else psmTrace d vrfs netTags rz rv

/-- AFC per-fabric execution pass, in source order: delete VLANs, delete
VRFs, create VRFs, then, when at least one VRF was to be created and not
in dry-run, re-fetch the actual VRFs (a failed re-fetch skips the rest of
the fabric), and finally create VLANs, each gated on its zone being in the
VRF set in hand at that point. This helper is the VLAN-creation loop for a
given VRF set in hand. -/
def afcVlanCreates (d : Desired) (vlanTags : Finset Nat)
    (rz : Finset String) (rv : Finset Nat) (vs : Finset String) : List Op :=
  ((afcVlansToCreate d vlanTags rz rv).filter
    (fun t => (d.segs.val t).zone ∈ vs)).sort (· ≤ ·) |>.map Op.createNet

/-- AFC per-fabric execution pass body after the state fetch. -/
def afcTrace (d : Desired) (vrfs : Finset String) (vlanTags : Finset Nat)
    (rz : Finset String) (rv : Finset Nat) (dryRun : Bool)
    (refetch : Option (Finset String)) : List Op :=
  ((afcVlansToDelete d vlanTags rz rv).sort (· ≤ ·) |>.map Op.deleteNet)
    ++ ((afcZonesToDelete d vrfs rz).sort (· ≤ ·) |>.map Op.deleteZone)
    ++ ((afcZonesToCreate d vrfs rz).sort (· ≤ ·) |>.map Op.createZone)
    ++ (if afcZonesToCreate d vrfs rz ≠ ∅ ∧ dryRun = false then
          Op.refetchZones ::
            (match refetch with
             | none => []
             | some vrfs2 => afcVlanCreates d vlanTags rz rv vrfs2)
        else afcVlanCreates d vlanTags rz rv vrfs)

/-- Every operation the AFC pass prints an action line for: all
create/delete function calls (each prints before its dry-run early
return); the re-fetch marker is not an action line. -/
def afcLogActions (d : Desired) (vrfs : Finset String) (vlanTags : Finset Nat)
    (rz : Finset String) (rv : Finset Nat) (dryRun : Bool)
    (refetch : Option (Finset String)) : List Op :=
  (afcTrace d vrfs vlanTags rz rv dryRun refetch).filter
    (fun o => o ≠ Op.refetchZones)

/-- The mutating HTTP calls the AFC pass issues: none under dry-run,
otherwise one per create/delete operation (the re-fetch is a read). -/
def afcMutationOps (d : Desired) (vrfs : Finset String) (vlanTags : Finset Nat)
    (rz : Finset String) (rv : Finset Nat) (dryRun : Bool)
    (refetch : Option (Finset String)) : List Op :=
  if dryRun then []
  else (afcTrace d vrfs vlanTags rz rv dryRun refetch).filter
    (fun o => o ≠ Op.refetchZones)

/-- The VRF set the AFC VLAN-creation loop tests membership against: the
re-fetch result when a re-fetch was performed (none when it failed, which
skips the loop), the original actual set otherwise. -/
def afcEffectiveVrfs (zc : Finset String) (vrfs : Finset String)
    (dryRun : Bool) (refetch : Option (Finset String)) : Option (Finset String) :=
  if zc ≠ ∅ ∧ dryRun = false then refetch else some vrfs

/-- A network call a worker can issue during one cycle. -/
inductive NetCall where
  | getProxZones
  | getProxVnets
  | psmLogin
  | getPsmVrfs
  | getPsmNets
  | afcAuth
  | getAfcFabrics
  | getAfcVrfs
  | getAfcVlans
  | mutate (o : Op)
deriving DecidableEq

/-- Environment key names checked for the source-of-truth token secret by
the PSM daemon, in fallback order. -/
def kTokRead : String := "PVE_TOKEN_SECRET_READ"

/-- Second fallback key for the PSM token secret. -/
def kTokProx : String := "PROXMOX_TOKEN_SECRET"

/-- Third fallback key for the PSM token secret. -/
def kTokPve : String := "PVE_TOKEN_SECRET"

/-- The keys load_environment overrides from the process environment after
reading the .env file. -/
def envOverrideKeys : List String :=
  [kTokRead, kTokProx, kTokPve, "PVE_API_USER", "PVE_TOKEN_ID", "PVE_HOST", "PVE_PORT"]

/-- PSM load_environment: key/value pairs read from the .env file, then,
for each key in the override list present in the process environment, the
process value wins. -/
def loadEnv (fileVars : List (String × String)) (osEnv : String → Option String)
    (k : String) : Option String :=
  if k ∈ envOverrideKeys then
    match osEnv k with
    | some v => some v
    | none => (fileVars.find? (fun p => p.1 == k)).map (fun p => p.2)
  else (fileVars.find? (fun p => p.1 == k)).map (fun p => p.2)

/-- PSM token-secret fallback chain over the merged environment, with
Python or-truthiness (missing and empty values are skipped). -/
def psmToken (env : String → Option String) : Option String :=
  match truthy (env kTokRead) with
  | some v => some v
  | none =>
    match truthy (env kTokProx) with
    | some v => some v
    | none => truthy (env kTokPve)

/-- PSM get_proxmox_state: fails closed with no HTTP request when no token
secret is found in the merged environment; otherwise issues the zones GET
and, when it succeeds, the vnets GET, returning the parsed desired state
only when both succeed. The response oracles carry the already parsed and
filtered data. -/
def psmGetProxmoxState (fileVars : List (String × String))
    (osEnv : String → Option String)
    (zonesResp : Option (Finset String)) (vnetsResp : Option (TagMap VnetSpec)) :
    Option Desired × List NetCall :=
  match psmToken (loadEnv fileVars osEnv) with
  | none => (none, [])
  | some _ =>
    match zonesResp with
    | none => (none, [.getProxZones])
    | some zs =>
      match vnetsResp with
      | none => (none, [.getProxZones, .getProxVnets])
      | some vs => (some ⟨zs, vs⟩, [.getProxZones, .getProxVnets])

/-- AFC get_proxmox_state: same fetch, but the token secret is read only
from the PVE_TOKEN_SECRET_READ process environment variable and checked
for truthiness. -/
def afcGetProxmoxState (osEnv : String → Option String)
    (zonesResp : Option (Finset String)) (vnetsResp : Option (TagMap VnetSpec)) :
    Option Desired × List NetCall :=
  match truthy (osEnv kTokRead) with
  | none => (none, [])
  | some _ =>
    match zonesResp with
    | none => (none, [.getProxZones])
    | some zs =>
      match vnetsResp with
      | none => (none, [.getProxZones, .getProxVnets])
      | some vs => (some ⟨zs, vs⟩, [.getProxZones, .getProxVnets])

/-- config.get(enabled, False): the stored boolean, defaulting to false
when the key is absent (the parser only ever stores booleans under it). -/
def getEnabled (t : PTarget) : Bool :=
  match lookupAttr t "enabled" with
  | some (.b v) => v
  | _ => false

/-- Python set(config.get(key, [])): the config value under the reserved
keys is a plain string, and set of a string is its set of characters, so
the resulting reserved-zone set is a set of one-character strings (empty
when the key is absent). -/
def pyCharSet (v : Option CVal) : Finset String :=
  match v with
  | some (.s str) => str.data.toFinset.image (fun c => String.mk [c])
  | _ => ∅

/-- Python set(config.get(reserved_vlans, [])) viewed as a set of integer
tags: the config value is a string, so the set contains characters, and a
membership test of an integer VLAN tag against a set of characters is
always false; as a tag set it is therefore empty. -/
def pyCharSetTags (_v : Option CVal) : Finset Nat := ∅

/-- Outcome of one iteration of a worker loop body: the worker breaks out
of its loop, or waits for the poll interval and continues. -/
inductive CycleOutcome where
  | stopped
  | waited
deriving DecidableEq

/-- Oracle inputs for one PSM worker cycle: the config file contents (none
models a missing file), the .env file pairs, the process environment, and
the responses of each HTTP exchange. -/
structure PsmCycleInput where
  file : Option (List String)
  fileVars : List (String × String)
  osEnv : String → Option String
  zonesResp : Option (Finset String)
  vnetsResp : Option (TagMap VnetSpec)
  loginOk : Bool
  vrfsResp : Option (Finset String)
  netsResp : Option (TagMap PsmNet)

/-- One iteration of the sync_psm_target while loop: re-parse the config,
stop when the target id is gone, otherwise fetch desired state (abort the
cycle on failure), log in to PSM (abort on failure), fetch PSM state
(abort on failure), then diff and execute with the reserved sets derived
from the config. Returns the outcome and every network call issued. -/
def psmCycle (id : String) (inp : PsmCycleInput) : CycleOutcome × List NetCall :=
  let cfg := psmParseFileCfg inp.file
  match lookupId cfg id with
  | none => (.stopped, [])
  | some tgt =>
    let dryRun := !(getEnabled tgt)
    let rz := pyCharSet (lookupAttr tgt "reserved_zone_names")
    let rv := pyCharSetTags (lookupAttr tgt "reserved_vlans")
    match psmGetProxmoxState inp.fileVars inp.osEnv inp.zonesResp inp.vnetsResp with
    | (none, reqs) => (.waited, reqs)
    | (some d, reqs) =>
      let reqs1 := reqs ++ [NetCall.psmLogin]
      if !inp.loginOk then (.waited, reqs1)
      else
        match inp.vrfsResp with
        | none => (.waited, reqs1 ++ [NetCall.getPsmVrfs])
        | some vrfs =>
          let reqs2 := reqs1 ++ [NetCall.getPsmVrfs, NetCall.getPsmNets]
          match inp.netsResp with
          | none => (.waited, reqs2)
          | some nets =>
            (.waited, reqs2 ++
              (psmMutationOps d vrfs nets.tags rz rv dryRun).map NetCall.mutate)

/-- Oracle inputs for one AFC worker cycle: the config file contents, the
process environment, the HTTP responses, and per-fabric state fetch and
re-fetch results. -/
structure AfcCycleInput where
  file : Option (List String)
  osEnv : String → Option String
  zonesResp : Option (Finset String)
  vnetsResp : Option (TagMap VnetSpec)
  authOk : Bool
  fabricsFound : List String
  fabricState : String → Option (Finset String × TagMap AfcVlan)
  fabricRefetch : String → Option (Finset String)

/-- Python str.split on a comma separator (keeping empty pieces, as the
source then filters them out). -/
def splitCommaL : List Char → List (List Char)
  | [] => [[]]
  | c :: cs =>
      if c = ',' then [] :: splitCommaL cs
      else
        match splitCommaL cs with
        | [] => [[c]]
        | p :: ps => (c :: p) :: ps

/-- The fabric list of an AFC target: fabric_names, or else fabric_name,
split on commas, each piece stripped, empty pieces dropped (Python or
falls through on a missing key or an empty string). -/
def afcFabricList (t : PTarget) : List String :=
  let namesVal : Option String :=
    match lookupAttr t "fabric_names" with
    | some (.s str) => some str
    | _ => none
  let nameVal : Option String :=
    match lookupAttr t "fabric_name" with
    | some (.s str) => some str
    | _ => none
  let joined : String :=
    match truthy namesVal with
    | some str => str
    | none => (nameVal.getD "")
  ((splitCommaL joined.data).map (fun cs => String.mk (pyStripL cs))).filter
    (fun piece => piece ≠ "")

/-- The network calls of one AFC per-fabric pass: the two state GETs, then
on success the execution pass, whose re-fetch marker stands for the two
GETs of get_afc_state called again. -/
def afcFabricPass (d : Desired) (rz : Finset String) (rv : Finset Nat)
    (dryRun : Bool) (st : Option (Finset String × TagMap AfcVlan))
    (refetch : Option (Finset String)) : List NetCall :=
  match st with
  | none => [.getAfcVrfs, .getAfcVlans]
  | some (vrfs, vlans) =>
    [NetCall.getAfcVrfs, NetCall.getAfcVlans] ++
      (if dryRun then []
       else (afcTrace d vrfs vlans.tags rz rv dryRun refetch).flatMap
         (fun o =>
           match o with
           | .refetchZones => [NetCall.getAfcVrfs, NetCall.getAfcVlans]
           | o => [NetCall.mutate o]))

/-- One iteration of the sync_afc_target while loop: re-parse the config
(a missing file exits with code 1 here too, not only at startup), stop
when the target id is gone, skip the cycle when no fabric is configured,
fetch desired state, authenticate, look up fabric UUIDs, then run one
pass per found fabric. -/
def afcCycle (id : String) (inp : AfcCycleInput) :
    Except Nat (CycleOutcome × List NetCall) :=
  match afcParseFile inp.file with
  | .error c => .error c
  | .ok cfg =>
    match lookupId cfg id with
    | none => .ok (.stopped, [])
    | some tgt =>
      let dryRun := !(getEnabled tgt)
      let rz := pyCharSet (lookupAttr tgt "reserved_zone_names")
      let rv := pyCharSetTags (lookupAttr tgt "reserved_vlans")
      if afcFabricList tgt = [] then .ok (.waited, [])
      else
        match afcGetProxmoxState inp.osEnv inp.zonesResp inp.vnetsResp with
        | (none, reqs) => .ok (.waited, reqs)
        | (some d, reqs) =>
          let reqs1 := reqs ++ [NetCall.afcAuth]
          if !inp.authOk then .ok (.waited, reqs1)
          else
            let reqs2 := reqs1 ++ [NetCall.getAfcFabrics]
            if inp.fabricsFound = [] then .ok (.waited, reqs2)
            else
              .ok (.waited, reqs2 ++ inp.fabricsFound.flatMap (fun fb =>
                afcFabricPass d rz rv dryRun (inp.fabricState fb)
                  (inp.fabricRefetch fb)))

/-- A candidate guest NIC in the discovery daemon, after the per-interface
resolution steps: the MAC address, the resolved VLAN tag (the int(tag)
value, -1 when untagged), and the collected IPv4 addresses. -/
structure IfaceRaw where
  mac : String
  tag : Int
  ips : List String
deriving DecidableEq

/-- A guest (QEMU VM or LXC container) as listed by a node, with its
candidate NICs. -/
structure GuestRaw where
  vmid : Nat
  name : String
  status : String
  nets : List IfaceRaw
deriving DecidableEq

/-- One cluster node with its guests; non-online nodes are skipped. The
two guest families are kept separate because the source processes QEMU
VMs and LXC containers in two loops with the same inclusion logic. -/
structure NodeRaw where
  name : String
  status : String
  vms : List GuestRaw
  lxcs : List GuestRaw
deriving DecidableEq

/-- An interface entry of the JSON snapshot. -/
structure IfaceOut where
  mac : String
  externalVlan : Int
  ips : List String
deriving DecidableEq

/-- A workload entry of the JSON snapshot. -/
structure Workload where
  vmid : Nat
  name : String
  hostName : String
  status : String
  interfaces : List IfaceOut
deriving DecidableEq

/-- Hexadecimal digit test used by format_mac_cisco. -/
def isHexDig (c : Char) : Bool :=
  c.isDigit || ('a' ≤ c && c ≤ 'f') || ('A' ≤ c && c ≤ 'F')

/-- format_mac_cisco: keep the hex digits, uppercase them, and group them
4.4.4 when exactly twelve remain; otherwise return the input unchanged. -/
def formatMacCisco (mac : String) : String :=
  if mac = "" ∨ mac = "N/A" then "N/A"
  else
    let cleaned := (mac.data.filter isHexDig).map Char.toUpper
    if cleaned.length ≠ 12 then mac
    else
      String.mk (cleaned.take 4) ++ "." ++ String.mk ((cleaned.drop 4).take 4)
        ++ "." ++ String.mk (cleaned.drop 8)

/-- Build the workload record for one guest: only candidate NICs whose
resolved tag is strictly positive become interface entries. -/
def buildWorkload (node : String) (g : GuestRaw) : Workload :=
  ⟨g.vmid, g.name, node, g.status,
    (g.nets.filter (fun i => 0 < i.tag)).map
      (fun i => ⟨formatMacCisco i.mac, i.tag, i.ips⟩)⟩

/-- Python dict write keyed by workload name: overwrite when present,
append otherwise. -/
def dictInsert (l : List (String × Workload)) (k : String) (v : Workload) :
    List (String × Workload) :=
  if l.any (fun p => p.1 == k) then
    l.map (fun p => if p.1 == k then (k, v) else p)
  else l ++ [(k, v)]

/-- Process the guests of one node: a guest with a falsy vmid or name is
skipped, and a workload is stored only when it has at least one interface
and its status is running. -/
def discoverGuests (node : String) (gs : List GuestRaw)
    (acc : List (String × Workload)) : List (String × Workload) :=
  gs.foldl (fun acc g =>
    if g.vmid = 0 ∨ g.name = "" then acc
    else
      let w := buildWorkload node g
      if w.interfaces ≠ [] ∧ g.status = "running" then dictInsert acc g.name w
      else acc) acc

/-- get_proxmox_state of the discovery daemon: walk the online nodes and
collect the reportable workloads of their VMs and containers into the
snapshot dictionary. -/
def discoveryWorkloads (nodes : List NodeRaw) : List (String × Workload) :=
  nodes.foldl (fun acc nd =>
    if nd.status = "online" then
      discoverGuests nd.name nd.lxcs (discoverGuests nd.name nd.vms acc)
    else acc) []

/-- Concrete desired state for the reserved-VLAN evaluation: zone mgmt
with the single segment tag 100 bound to it. -/
def exReserved : Desired :=
  ⟨{"mgmt"}, ⟨{100}, fun _ => ⟨"vlan100", "mgmt"⟩⟩⟩

/-- Concrete desired state of the example scenario of the spec: zones
prod and dev, no segments. -/
def exScenario : Desired :=
  ⟨{"prod", "dev"}, ⟨∅, fun _ => ⟨"", ""⟩⟩⟩

/-- Concrete desired state with one zone and one dependent segment, used
to exercise the dependent-creation paths. -/
def exDependent : Desired :=
  ⟨{"prod"}, ⟨{100}, fun _ => ⟨"app", "prod"⟩⟩⟩

/-- Concrete desired state with one zone edge and one dependent segment
tag 7. -/
def exEdge : Desired :=
  ⟨{"edge"}, ⟨{7}, fun _ => ⟨"v7", "edge"⟩⟩⟩

/-- Concrete desired state with no zones and no segments. -/
def exEmpty : Desired :=
  ⟨∅, ⟨∅, fun _ => ⟨"", ""⟩⟩⟩

/-- Phase number of an operation in the order the claim states (the order
the AFC daemon uses): network deletions, routing-domain deletions,
routing-domain creations, re-fetch, network creations. -/
def claimPhase : Op → Nat
  | .deleteNet _ => 0
  | .deleteZone _ => 1
  | .createZone _ => 2
  | .refetchZones => 3
  | .createNet _ => 4

/-- Phase number of an operation in the order the PSM daemon actually
uses: routing-domain creations, routing-domain deletions, network
creations, network deletions (and it never re-fetches). -/
def psmPhase : Op → Nat
  | .createZone _ => 0
  | .deleteZone _ => 1
  | .createNet _ => 2
  | .deleteNet _ => 3
  | .refetchZones => 4

/-- A trace follows a phase assignment when every operation's phase is at
most every later operation's phase. -/
def PhaseOrdered (f : Op → Nat) (l : List Op) : Prop :=
  l.Pairwise (fun a b => f a ≤ f b)

/-- The invariant of every entry of the discovery snapshot: status
running, at least one interface, and every interface tagged with a
strictly positive VLAN. -/
def GoodEntry (x : String × Workload) : Prop :=
  x.2.status = "running" ∧ x.2.interfaces ≠ [] ∧
    ∀ i ∈ x.2.interfaces, 0 < i.externalVlan

theorem mem_psmTrace_deleteNet (d : Desired) (vrfs : Finset String)
    (netTags : Finset Nat) (rz : Finset String) (rv : Finset Nat) (t : Nat) :
    Op.deleteNet t ∈ psmTrace d vrfs netTags rz rv ↔
      t ∈ psmVnetsToDelete d netTags rz rv := by
  simp [psmTrace, List.mem_append, List.mem_map, Finset.mem_sort]

theorem mem_psmTrace_createNet (d : Desired) (vrfs : Finset String)
    (netTags : Finset Nat) (rz : Finset String) (rv : Finset Nat) (t : Nat) :
    Op.createNet t ∈ psmTrace d vrfs netTags rz rv ↔
      t ∈ psmVnetsToCreate d netTags rz rv ∧
        ((d.segs.val t).zone ∈ vrfs ∨
          (d.segs.val t).zone ∈ psmZonesToCreate d vrfs rz) := by
  simp [psmTrace, List.mem_append, List.mem_map, Finset.mem_sort, Finset.mem_filter]

theorem mem_psmTrace_createZone (d : Desired) (vrfs : Finset String)
    (netTags : Finset Nat) (rz : Finset String) (rv : Finset Nat) (z : String) :
    Op.createZone z ∈ psmTrace d vrfs netTags rz rv ↔
      z ∈ psmZonesToCreate d vrfs rz := by
  simp [psmTrace, List.mem_append, List.mem_map, Finset.mem_sort]

theorem mem_psmTrace_deleteZone (d : Desired) (vrfs : Finset String)
    (netTags : Finset Nat) (rz : Finset String) (rv : Finset Nat) (z : String) :
    Op.deleteZone z ∈ psmTrace d vrfs netTags rz rv ↔
      z ∈ psmZonesToDelete d vrfs rz := by
  simp [psmTrace, List.mem_append, List.mem_map, Finset.mem_sort]

theorem refetch_not_mem_psmTrace (d : Desired) (vrfs : Finset String)
    (netTags : Finset Nat) (rz : Finset String) (rv : Finset Nat) :
    Op.refetchZones ∉ psmTrace d vrfs netTags rz rv := by
  simp [psmTrace, List.mem_append, List.mem_map, Finset.mem_sort]

theorem mem_afcTrace_deleteNet (d : Desired) (vrfs : Finset String)
    (vlanTags : Finset Nat) (rz : Finset String) (rv : Finset Nat)
    (dryRun : Bool) (refetch : Option (Finset String)) (t : Nat) :
    Op.deleteNet t ∈ afcTrace d vrfs vlanTags rz rv dryRun refetch ↔
      t ∈ afcVlansToDelete d vlanTags rz rv := by
  rcases hr : refetch with _ | vs <;>
    by_cases hc : afcZonesToCreate d vrfs rz ≠ ∅ ∧ dryRun = false <;>
      simp [afcTrace, afcVlanCreates, hc, List.mem_append, List.mem_map, Finset.mem_sort]

theorem mem_afcTrace_deleteZone (d : Desired) (vrfs : Finset String)
    (vlanTags : Finset Nat) (rz : Finset String) (rv : Finset Nat)
    (dryRun : Bool) (refetch : Option (Finset String)) (z : String) :
    Op.deleteZone z ∈ afcTrace d vrfs vlanTags rz rv dryRun refetch ↔
      z ∈ afcZonesToDelete d vrfs rz := by
  rcases hr : refetch with _ | vs <;>
    by_cases hc : afcZonesToCreate d vrfs rz ≠ ∅ ∧ dryRun = false <;>
      simp [afcTrace, afcVlanCreates, hc, List.mem_append, List.mem_map, Finset.mem_sort]

theorem mem_afcTrace_createZone (d : Desired) (vrfs : Finset String)
    (vlanTags : Finset Nat) (rz : Finset String) (rv : Finset Nat)
    (dryRun : Bool) (refetch : Option (Finset String)) (z : String) :
    Op.createZone z ∈ afcTrace d vrfs vlanTags rz rv dryRun refetch ↔
      z ∈ afcZonesToCreate d vrfs rz := by
  rcases hr : refetch with _ | vs <;>
    by_cases hc : afcZonesToCreate d vrfs rz ≠ ∅ ∧ dryRun = false <;>
      simp [afcTrace, afcVlanCreates, hc, List.mem_append, List.mem_map, Finset.mem_sort]

theorem mem_afcTrace_refetch (d : Desired) (vrfs : Finset String)
    (vlanTags : Finset Nat) (rz : Finset String) (rv : Finset Nat)
    (dryRun : Bool) (refetch : Option (Finset String)) :
    Op.refetchZones ∈ afcTrace d vrfs vlanTags rz rv dryRun refetch ↔
      afcZonesToCreate d vrfs rz ≠ ∅ ∧ dryRun = false := by
  rcases hr : refetch with _ | vs <;>
    by_cases hc : afcZonesToCreate d vrfs rz ≠ ∅ ∧ dryRun = false <;>
      simp [afcTrace, afcVlanCreates, hc, List.mem_append, List.mem_map, Finset.mem_sort]

theorem mem_afcTrace_createNet (d : Desired) (vrfs : Finset String)
    (vlanTags : Finset Nat) (rz : Finset String) (rv : Finset Nat)
    (dryRun : Bool) (refetch : Option (Finset String)) (t : Nat) :
    Op.createNet t ∈ afcTrace d vrfs vlanTags rz rv dryRun refetch ↔
      t ∈ afcVlansToCreate d vlanTags rz rv ∧
        ∃ vs, afcEffectiveVrfs (afcZonesToCreate d vrfs rz) vrfs dryRun refetch
            = some vs ∧ (d.segs.val t).zone ∈ vs := by
  rcases hr : refetch with _ | vs <;>
    by_cases hc : afcZonesToCreate d vrfs rz ≠ ∅ ∧ dryRun = false <;>
      simp [afcTrace, afcVlanCreates, afcEffectiveVrfs, hc, List.mem_append, List.mem_map,
        Finset.mem_sort, Finset.mem_filter]

theorem pairwiseOfTotal {α : Type} {R : α → α → Prop} (h : ∀ a b, R a b) :
    ∀ l : List α, l.Pairwise R
  | [] => .nil
  | a :: l => .cons (fun b _ => h a b) (pairwiseOfTotal h l)

theorem phaseOrdered_append {f : Op → Nat} {l₁ l₂ : List Op} (k : Nat)
    (h₁ : PhaseOrdered f l₁) (h₂ : PhaseOrdered f l₂)
    (hb₁ : ∀ x ∈ l₁, f x ≤ k) (hb₂ : ∀ y ∈ l₂, k ≤ f y) :
    PhaseOrdered f (l₁ ++ l₂) :=
  List.pairwise_append.mpr
    ⟨h₁, h₂, fun x hx y hy => le_trans (hb₁ x hx) (hb₂ y hy)⟩

theorem phaseOrdered_map {α : Type} {f : Op → Nat} (g : α → Op) (l : List α)
    (c : Nat) (h : ∀ a, f (g a) = c) : PhaseOrdered f (l.map g) :=
  List.pairwise_map.mpr (pairwiseOfTotal (fun a b => by rw [h a, h b]) l)

theorem phase_of_mem_map (f : Op → Nat) {α : Type} (g : α → Op) (l : List α)
    (c : Nat) (h : ∀ a, f (g a) = c) : ∀ x ∈ l.map g, f x = c := by
  intro x hx
  rcases List.mem_map.mp hx with ⟨a, _, rfl⟩
  exact h a

theorem phase_le_of_mem_map (f : Op → Nat) {α : Type} (g : α → Op) (l : List α)
    (c k : Nat) (h : ∀ a, f (g a) = c) (hck : c ≤ k) : ∀ x ∈ l.map g, f x ≤ k := by
  intro x hx
  rw [phase_of_mem_map f g l c h x hx]
  exact hck

theorem le_phase_of_mem_map (f : Op → Nat) {α : Type} (g : α → Op) (l : List α)
    (c k : Nat) (h : ∀ a, f (g a) = c) (hkc : k ≤ c) : ∀ x ∈ l.map g, k ≤ f x := by
  intro x hx
  rw [phase_of_mem_map f g l c h x hx]
  exact hkc

theorem psmTrace_phaseOrdered (d : Desired) (vrfs : Finset String)
    (netTags : Finset Nat) (rz : Finset String) (rv : Finset Nat) :
    PhaseOrdered psmPhase (psmTrace d vrfs netTags rz rv) := by
  unfold psmTrace
  refine phaseOrdered_append 3 ?_
    (phaseOrdered_map Op.deleteNet _ 3 (fun a => rfl)) ?_
    (le_phase_of_mem_map psmPhase Op.deleteNet _ 3 3 (fun a => rfl) le_rfl)
  · refine phaseOrdered_append 2 ?_
      (phaseOrdered_map Op.createNet _ 2 (fun a => rfl)) ?_
      (le_phase_of_mem_map psmPhase Op.createNet _ 2 2 (fun a => rfl) le_rfl)
    · exact phaseOrdered_append 1
        (phaseOrdered_map Op.createZone _ 0 (fun a => rfl))
        (phaseOrdered_map Op.deleteZone _ 1 (fun a => rfl))
        (phase_le_of_mem_map psmPhase Op.createZone _ 0 1 (fun a => rfl) (by omega))
        (le_phase_of_mem_map psmPhase Op.deleteZone _ 1 1 (fun a => rfl) le_rfl)
    · intro x hx
      rcases List.mem_append.mp hx with h | h
      · exact phase_le_of_mem_map psmPhase Op.createZone _ 0 2 (fun a => rfl)
          (by omega) x h
      · exact phase_le_of_mem_map psmPhase Op.deleteZone _ 1 2 (fun a => rfl)
          (by omega) x h
  · intro x hx
    rcases List.mem_append.mp hx with h | h
    · rcases List.mem_append.mp h with h2 | h2
      · exact phase_le_of_mem_map psmPhase Op.createZone _ 0 3 (fun a => rfl)
          (by omega) x h2
      · exact phase_le_of_mem_map psmPhase Op.deleteZone _ 1 3 (fun a => rfl)
          (by omega) x h2
    · exact phase_le_of_mem_map psmPhase Op.createNet _ 2 3 (fun a => rfl)
        (by omega) x h

theorem afcVlanCreates_phaseOrdered (d : Desired) (vlanTags : Finset Nat)
    (rz : Finset String) (rv : Finset Nat) (vs : Finset String) :
    PhaseOrdered claimPhase (afcVlanCreates d vlanTags rz rv vs) :=
  phaseOrdered_map Op.createNet _ 4 (fun _ => rfl)

theorem afcVlanCreates_phase_ge (d : Desired) (vlanTags : Finset Nat)
    (rz : Finset String) (rv : Finset Nat) (vs : Finset String) (k : Nat)
    (hk : k ≤ 4) : ∀ y ∈ afcVlanCreates d vlanTags rz rv vs, k ≤ claimPhase y :=
  le_phase_of_mem_map claimPhase Op.createNet _ 4 k (fun _ => rfl) hk

theorem afcTrace_phaseOrdered (d : Desired) (vrfs : Finset String)
    (vlanTags : Finset Nat) (rz : Finset String) (rv : Finset Nat)
    (dryRun : Bool) (refetch : Option (Finset String)) :
    PhaseOrdered claimPhase (afcTrace d vrfs vlanTags rz rv dryRun refetch) := by
  unfold afcTrace
  refine phaseOrdered_append 3 ?_ ?_ ?_ ?_
  · refine phaseOrdered_append 2 ?_
      (phaseOrdered_map Op.createZone _ 2 (fun a => rfl)) ?_
      (le_phase_of_mem_map claimPhase Op.createZone _ 2 2 (fun a => rfl) le_rfl)
    · exact phaseOrdered_append 1
        (phaseOrdered_map Op.deleteNet _ 0 (fun a => rfl))
        (phaseOrdered_map Op.deleteZone _ 1 (fun a => rfl))
        (phase_le_of_mem_map claimPhase Op.deleteNet _ 0 1 (fun a => rfl) (by omega))
        (le_phase_of_mem_map claimPhase Op.deleteZone _ 1 1 (fun a => rfl) le_rfl)
    · intro x hx
      rcases List.mem_append.mp hx with h | h
      · exact phase_le_of_mem_map claimPhase Op.deleteNet _ 0 2 (fun a => rfl)
          (by omega) x h
      · exact phase_le_of_mem_map claimPhase Op.deleteZone _ 1 2 (fun a => rfl)
          (by omega) x h
  · split_ifs with hc
    · cases refetch with
      | none => exact List.pairwise_singleton _ _
      | some vs =>
          refine List.Pairwise.cons ?_ (afcVlanCreates_phaseOrdered d vlanTags rz rv vs)
          intro y hy
          exact afcVlanCreates_phase_ge d vlanTags rz rv vs 3 (by omega) y hy
    · exact afcVlanCreates_phaseOrdered d vlanTags rz rv vrfs
  · intro x hx
    rcases List.mem_append.mp hx with h | h
    · rcases List.mem_append.mp h with h2 | h2
      · exact phase_le_of_mem_map claimPhase Op.deleteNet _ 0 3 (fun a => rfl)
          (by omega) x h2
      · exact phase_le_of_mem_map claimPhase Op.deleteZone _ 1 3 (fun a => rfl)
          (by omega) x h2
    · exact phase_le_of_mem_map claimPhase Op.createZone _ 2 3 (fun a => rfl)
        (by omega) x h
  · intro y hy
    split_ifs at hy with hc
    · rcases List.mem_cons.mp hy with rfl | h
      · exact le_rfl
      · cases refetch with
        | none => simp at h
        | some vs => exact afcVlanCreates_phase_ge d vlanTags rz rv vs 3 (by omega) y h
    · exact afcVlanCreates_phase_ge d vlanTags rz rv vrfs 3 (by omega) y hy

/-- Claim C1 (code bug): the claim says no plan ever contains a create or
delete referencing a reserved zone or a reserved VLAN tag, and in
particular that an actual network whose tag is reserved is never placed
in networks_to_delete. The code violates this: because the deletion set is
computed against the reserved-filtered desired set, a network whose tag
100 is reserved and present in actual state (here even present in desired
state) lands in networks_to_delete in both daemons and its deletion is
issued in both execution passes. -/
theorem c1_reserved_vlan_is_deleted :
    100 ∈ psmVnetsToDelete exReserved {100} ∅ {100} ∧
      Op.deleteNet 100 ∈ psmTrace exReserved {"mgmt"} {100} ∅ {100} ∧
      100 ∈ afcVlansToDelete exReserved {100} ∅ {100} ∧
      Op.deleteNet 100 ∈ afcTrace exReserved {"mgmt"} {100} ∅ {100} false none := by
  refine ⟨by decide, ?_, by decide, ?_⟩
  · rw [mem_psmTrace_deleteNet]
    decide
  · rw [mem_afcTrace_deleteNet]
    decide

/-- Claim C2 (counterexample): the claimed fixed order puts all network
deletions before all routing-domain deletions, but the PSM daemon issues
its routing-domain deletion before its network deletion: on a state with
one stale virtual router and one stale network, the PSM pass is not
ordered by the claimed phases. -/
theorem c2_psm_violates_claimed_order :
    ¬ PhaseOrdered claimPhase (psmTrace exEmpty {"z"} {5} ∅ ∅) := by
  have h1 : psmZonesToCreate exEmpty {"z"} ∅ = ∅ := by decide
  have h2 : psmZonesToDelete exEmpty {"z"} ∅ = {"z"} := by decide
  have h3 : (psmVnetsToCreate exEmpty {5} ∅ ∅).filter
      (fun t => (exEmpty.segs.val t).zone ∈ ({"z"} : Finset String) ∨
        (exEmpty.segs.val t).zone ∈ psmZonesToCreate exEmpty {"z"} ∅) = ∅ := by
    decide
  have h4 : psmVnetsToDelete exEmpty {5} ∅ ∅ = {5} := by decide
  have htr : psmTrace exEmpty {"z"} {5} ∅ ∅ = [Op.deleteZone "z", Op.deleteNet 5] := by
    unfold psmTrace
    rw [h3, h1, h2, h4]
    simp [Finset.sort_empty, Finset.sort_singleton]
  intro h
  rw [htr] at h
  have := (List.pairwise_cons.mp h).1 (Op.deleteNet 5) (by simp)
  simp [claimPhase] at this

/-- Claim C2 (amended): the AFC daemon issues operations in the claimed
fixed order (network deletions, routing-domain deletions, routing-domain
creations, re-fetch, network creations) and performs the re-fetch exactly
when at least one routing domain is to be created and dry-run is off; the
PSM daemon instead issues routing-domain creations, routing-domain
deletions, network creations, network deletions, and never re-fetches. In
both daemons no network creation is issued before a routing-domain
creation of the same cycle. -/
theorem c2_execution_order :
    ∀ (d : Desired) (vrfs : Finset String) (vlanTags netTags : Finset Nat)
      (rz : Finset String) (rv : Finset Nat) (dryRun : Bool)
      (refetch : Option (Finset String)),
      PhaseOrdered claimPhase (afcTrace d vrfs vlanTags rz rv dryRun refetch) ∧
        (Op.refetchZones ∈ afcTrace d vrfs vlanTags rz rv dryRun refetch ↔
          afcZonesToCreate d vrfs rz ≠ ∅ ∧ dryRun = false) ∧
        PhaseOrdered psmPhase (psmTrace d vrfs netTags rz rv) ∧
        Op.refetchZones ∉ psmTrace d vrfs netTags rz rv := by
  intro d vrfs vlanTags netTags rz rv dryRun refetch
  exact ⟨afcTrace_phaseOrdered d vrfs vlanTags rz rv dryRun refetch,
    mem_afcTrace_refetch d vrfs vlanTags rz rv dryRun refetch,
    psmTrace_phaseOrdered d vrfs netTags rz rv,
    refetch_not_mem_psmTrace d vrfs netTags rz rv⟩

/-- Claim C3: both daemons compute zones_to_create as desired zones minus
actual routing domains minus reserved zones, and zones_to_delete as actual
routing domains minus desired zones minus reserved zones; on the example
scenario (desired prod and dev, actual dev and legacy, reserved legacy)
the plan creates exactly prod and deletes nothing. -/
theorem c3_zone_diff_formulas :
    (∀ (d : Desired) (vrfs rz : Finset String) (z : String),
        (z ∈ psmZonesToCreate d vrfs rz ↔ z ∈ d.zones ∧ z ∉ vrfs ∧ z ∉ rz) ∧
        (z ∈ psmZonesToDelete d vrfs rz ↔ z ∈ vrfs ∧ z ∉ d.zones ∧ z ∉ rz) ∧
        (z ∈ afcZonesToCreate d vrfs rz ↔ z ∈ d.zones ∧ z ∉ vrfs ∧ z ∉ rz) ∧
        (z ∈ afcZonesToDelete d vrfs rz ↔ z ∈ vrfs ∧ z ∉ d.zones ∧ z ∉ rz)) ∧
      psmZonesToCreate exScenario {"dev", "legacy"} {"legacy"} = {"prod"} ∧
      psmZonesToDelete exScenario {"dev", "legacy"} {"legacy"} = ∅ ∧
      afcZonesToCreate exScenario {"dev", "legacy"} {"legacy"} = {"prod"} ∧
      afcZonesToDelete exScenario {"dev", "legacy"} {"legacy"} = ∅ := by
  refine ⟨?_, by decide, by decide, by decide, by decide⟩
  intro d vrfs rz z
  refine ⟨?_, ?_, ?_, ?_⟩ <;>
    simp [psmZonesToCreate, psmZonesToDelete, afcZonesToCreate, afcZonesToDelete,
      Finset.mem_sdiff, and_assoc]

theorem mem_afcLogActions (d : Desired) (vrfs : Finset String)
    (vlanTags : Finset Nat) (rz : Finset String) (rv : Finset Nat)
    (dryRun : Bool) (refetch : Option (Finset String)) (o : Op)
    (ho : o ≠ Op.refetchZones) :
    o ∈ afcLogActions d vrfs vlanTags rz rv dryRun refetch ↔
      o ∈ afcTrace d vrfs vlanTags rz rv dryRun refetch := by
  simp [afcLogActions, List.mem_filter, ho]

/-- Claim C4 (amended): with enabled equal to 0 (dry-run) neither daemon
issues any mutating call. The PSM daemon still logs every planned action:
zone creations and deletions, network deletions, and exactly those network
creations whose gate passes (zone among actual or to-be-created virtual
routers). The AFC daemon in dry-run logs zone operations and network
deletions, but logs a planned network creation only when its zone is
already among the un-refreshed actual VRFs: a creation dependent on a
same-cycle zone creation is silently skipped, because the dry run performs
no re-fetch and the gate checks only the fetched VRF set. -/
theorem c4_dry_run_purity :
    ∀ (d : Desired) (vrfs : Finset String) (netTags vlanTags : Finset Nat)
      (rz : Finset String) (rv : Finset Nat) (refetch : Option (Finset String))
      (z : String) (t : Nat),
      psmMutationOps d vrfs netTags rz rv true = [] ∧
      afcMutationOps d vrfs vlanTags rz rv true refetch = [] ∧
      (Op.createZone z ∈ psmLogActions d vrfs netTags rz rv ↔
        z ∈ psmZonesToCreate d vrfs rz) ∧
      (Op.deleteZone z ∈ psmLogActions d vrfs netTags rz rv ↔
        z ∈ psmZonesToDelete d vrfs rz) ∧
      (Op.deleteNet t ∈ psmLogActions d vrfs netTags rz rv ↔
        t ∈ psmVnetsToDelete d netTags rz rv) ∧
      (Op.createNet t ∈ psmLogActions d vrfs netTags rz rv ↔
        t ∈ psmVnetsToCreate d netTags rz rv ∧
          ((d.segs.val t).zone ∈ vrfs ∨
            (d.segs.val t).zone ∈ psmZonesToCreate d vrfs rz)) ∧
      (Op.createZone z ∈ afcLogActions d vrfs vlanTags rz rv true refetch ↔
        z ∈ afcZonesToCreate d vrfs rz) ∧
      (Op.deleteZone z ∈ afcLogActions d vrfs vlanTags rz rv true refetch ↔
        z ∈ afcZonesToDelete d vrfs rz) ∧
      (Op.deleteNet t ∈ afcLogActions d vrfs vlanTags rz rv true refetch ↔
        t ∈ afcVlansToDelete d vlanTags rz rv) ∧
      (Op.createNet t ∈ afcLogActions d vrfs vlanTags rz rv true refetch ↔
        t ∈ afcVlansToCreate d vlanTags rz rv ∧ (d.segs.val t).zone ∈ vrfs) := by
  intro d vrfs netTags vlanTags rz rv refetch z t
  refine ⟨by simp [psmMutationOps], by simp [afcMutationOps], ?_, ?_, ?_, ?_, ?_, ?_, ?_, ?_⟩
  · exact mem_psmTrace_createZone d vrfs netTags rz rv z
  · exact mem_psmTrace_deleteZone d vrfs netTags rz rv z
  · exact mem_psmTrace_deleteNet d vrfs netTags rz rv t
  · exact mem_psmTrace_createNet d vrfs netTags rz rv t
  · rw [mem_afcLogActions d vrfs vlanTags rz rv true refetch _ (by simp)]
    exact mem_afcTrace_createZone d vrfs vlanTags rz rv true refetch z
  · rw [mem_afcLogActions d vrfs vlanTags rz rv true refetch _ (by simp)]
    exact mem_afcTrace_deleteZone d vrfs vlanTags rz rv true refetch z
  · rw [mem_afcLogActions d vrfs vlanTags rz rv true refetch _ (by simp)]
    exact mem_afcTrace_deleteNet d vrfs vlanTags rz rv true refetch t
  · rw [mem_afcLogActions d vrfs vlanTags rz rv true refetch _ (by simp)]
    rw [mem_afcTrace_createNet d vrfs vlanTags rz rv true refetch t]
    simp [afcEffectiveVrfs]

/-- Claim C4 (counterexample): in dry-run the AFC daemon issues no
mutating call, yet the planned creation of network 100 (whose zone prod is
itself planned for creation) is not reported in the log output, refuting
the claim that every planned create is still reported. -/
theorem c4_dry_run_unlogged_create :
    afcMutationOps exDependent ∅ ∅ ∅ ∅ true none = [] ∧
      100 ∈ afcVlansToCreate exDependent ∅ ∅ ∅ ∧
      "prod" ∈ afcZonesToCreate exDependent ∅ ∅ ∧
      Op.createNet 100 ∉ afcLogActions exDependent ∅ ∅ ∅ ∅ true none := by
  refine ⟨by simp [afcMutationOps], by decide, by decide, ?_⟩
  rw [mem_afcLogActions exDependent ∅ ∅ ∅ ∅ true none _ (by simp)]
  rw [mem_afcTrace_createNet]
  simp [afcEffectiveVrfs]

/-- Claim C6 (amended): in the PSM daemon a planned network creation is
attempted exactly when its zone is among the actual virtual routers (never
re-fetched) or among the zones created this cycle. In the AFC daemon a
planned network creation is attempted exactly when its zone is in the VRF
set in hand after the optional re-fetch: membership of the zone in the
zones-to-create set does not by itself allow the attempt (in dry-run there
is no re-fetch, and a failed re-fetch skips all creations), so such
creations are skipped for the cycle and recomputed next cycle. -/
theorem c6_dependent_network_gating :
    ∀ (d : Desired) (vrfs : Finset String) (netTags vlanTags : Finset Nat)
      (rz : Finset String) (rv : Finset Nat) (dryRun : Bool)
      (refetch : Option (Finset String)) (t : Nat),
      (Op.createNet t ∈ psmTrace d vrfs netTags rz rv ↔
        t ∈ psmVnetsToCreate d netTags rz rv ∧
          ((d.segs.val t).zone ∈ vrfs ∨
            (d.segs.val t).zone ∈ psmZonesToCreate d vrfs rz)) ∧
      (Op.createNet t ∈ afcTrace d vrfs vlanTags rz rv dryRun refetch ↔
        t ∈ afcVlansToCreate d vlanTags rz rv ∧
          ∃ vs, afcEffectiveVrfs (afcZonesToCreate d vrfs rz) vrfs dryRun refetch
              = some vs ∧ (d.segs.val t).zone ∈ vs) := by
  intro d vrfs netTags vlanTags rz rv dryRun refetch t
  exact ⟨mem_psmTrace_createNet d vrfs netTags rz rv t,
    mem_afcTrace_createNet d vrfs vlanTags rz rv dryRun refetch t⟩

/-- Claim C6 (counterexample): network 7 is planned, and its zone edge is
in the same cycle's zones-to-create set, yet the AFC daemon in dry-run
does not attempt (or even log) its creation, refuting the claimed if and
only if condition. -/
theorem c6_dependent_network_skipped :
    7 ∈ afcVlansToCreate exEdge ∅ ∅ ∅ ∧
      "edge" ∈ afcZonesToCreate exEdge ∅ ∅ ∧
      Op.createNet 7 ∉ afcTrace exEdge ∅ ∅ ∅ ∅ true none := by
  refine ⟨by decide, by decide, ?_⟩
  rw [mem_afcTrace_createNet]
  simp [afcEffectiveVrfs]

/-- Claim C5 (counterexample): on a missing configuration file the PSM
parser returns an empty target map and never exits (its result is always
ok), so the claimed process termination with exit code 1 does not happen
in the PSM daemon; and the AFC daemon exits with code 1 from a worker
cycle as well, not only at process startup. -/
theorem c5_missing_file_not_fatal_psm :
    psmParseFileE none = .ok ⟨[]⟩ ∧
      afcCycle "x"
          ⟨none, fun _ => none, none, none, false, [], fun _ => none,
            fun _ => none⟩ = .error 1 := by
  constructor
  · rfl
  · rfl

/-- Claim C5 (amended): in the AFC daemon a missing or unreadable
configuration file calls sys.exit(1) at every parse, during worker cycles
as much as at startup; in the PSM daemon it is never fatal: the parser
returns an empty target map, so a worker that re-parses a missing file
stops gracefully, exactly as on hot removal, issuing no network call. -/
theorem c5_missing_file_behavior :
    afcParseFile none = .error 1 ∧
      (∀ (id : String) (osEnv : String → Option String)
        (zr : Option (Finset String)) (vr : Option (TagMap VnetSpec))
        (ak : Bool) (ff : List String)
        (fs : String → Option (Finset String × TagMap AfcVlan))
        (fr : String → Option (Finset String)),
        afcCycle id ⟨none, osEnv, zr, vr, ak, ff, fs, fr⟩ = .error 1) ∧
      psmParseFileE none = .ok ⟨[]⟩ ∧
      (∀ (id : String) (fv : List (String × String))
        (osEnv : String → Option String) (zr : Option (Finset String))
        (vr : Option (TagMap VnetSpec)) (lo : Bool)
        (vfr : Option (Finset String)) (nr : Option (TagMap PsmNet)),
        psmCycle id ⟨none, fv, osEnv, zr, vr, lo, vfr, nr⟩ = (.stopped, [])) := by
  refine ⟨rfl, fun id osEnv zr vr ak ff fs fr => rfl, rfl, fun id fv osEnv zr vr lo vfr nr => rfl⟩

/-- Claim C7: each worker re-parses the configuration at the head of every
cycle and looks its own target up by id; when the id is absent the cycle
returns the stopped outcome immediately and issues no network call, in
both daemons, so removal of a target section stops its worker within one
poll interval. -/
theorem c7_absent_target_stops_worker :
    (∀ (id : String) (inp : PsmCycleInput),
        lookupId (psmParseFileCfg inp.file) id = none →
        psmCycle id inp = (.stopped, [])) ∧
      (∀ (id : String) (inp : AfcCycleInput) (cfg : PConfig),
        afcParseFile inp.file = .ok cfg →
        lookupId cfg id = none →
        afcCycle id inp = .ok (.stopped, [])) := by
  constructor
  · intro id inp h
    simp [psmCycle, h]
  · intro id inp cfg h1 h2
    simp [afcCycle, h1, h2]

/-- Witness for claim C7: a config with a single section psm a (and afc a
respectively) contains no target named gone, so the cycle stops. -/
theorem c7_absent_target_stops_worker_witness :
    psmCycle "gone"
        ⟨some ["psm: a"], [], fun _ => none, none, none, false, none, none⟩
        = (.stopped, []) ∧
      afcCycle "gone"
        ⟨some ["afc: a"], fun _ => none, none, none, false, [], fun _ => none,
          fun _ => none⟩ = .ok (.stopped, []) :=
  ⟨c7_absent_target_stops_worker.1 "gone" _ (by decide),
    c7_absent_target_stops_worker.2 "gone" _ ⟨[("a", ⟨"afc", []⟩)]⟩ rfl
      (by decide)⟩

/-- Claim C8: when the source-of-truth token secret is absent (or empty)
in the environment, the desired-state fetch of either daemon fails closed:
it returns none and issues no HTTP request at all; and a cycle whose fetch
fails this way aborts into a plain wait, issuing no sink call and never
acting on an empty desired state. -/
theorem c8_missing_secret_fails_closed :
    (∀ (fv : List (String × String)) (osEnv : String → Option String)
      (zr : Option (Finset String)) (vr : Option (TagMap VnetSpec)),
        truthy (loadEnv fv osEnv kTokRead) = none →
        truthy (loadEnv fv osEnv kTokProx) = none →
        truthy (loadEnv fv osEnv kTokPve) = none →
        psmGetProxmoxState fv osEnv zr vr = (none, [])) ∧
      (∀ (osEnv : String → Option String) (zr : Option (Finset String))
        (vr : Option (TagMap VnetSpec)),
        truthy (osEnv kTokRead) = none →
        afcGetProxmoxState osEnv zr vr = (none, [])) ∧
      (∀ (id : String) (inp : PsmCycleInput) (tgt : PTarget),
        lookupId (psmParseFileCfg inp.file) id = some tgt →
        truthy (loadEnv inp.fileVars inp.osEnv kTokRead) = none →
        truthy (loadEnv inp.fileVars inp.osEnv kTokProx) = none →
        truthy (loadEnv inp.fileVars inp.osEnv kTokPve) = none →
        psmCycle id inp = (.waited, [])) ∧
      (∀ (id : String) (inp : AfcCycleInput) (tgt : PTarget),
        afcParseFile inp.file = .ok ⟨[(id, tgt)]⟩ →
        afcFabricList tgt ≠ [] →
        truthy (inp.osEnv kTokRead) = none →
        afcCycle id inp = .ok (.waited, [])) := by
  refine ⟨?_, ?_, ?_, ?_⟩
  · intro fv osEnv zr vr h1 h2 h3
    simp [psmGetProxmoxState, psmToken, h1, h2, h3]
  · intro osEnv zr vr h1
    simp [afcGetProxmoxState, h1]
  · intro id inp tgt hl h1 h2 h3
    simp [psmCycle, hl, psmGetProxmoxState, psmToken, h1, h2, h3]
  · intro id inp tgt hp hf h1
    simp [afcCycle, hp, lookupId, hf, afcGetProxmoxState, h1]

/-- Witness for claim C8: with an empty environment no token secret is
found, so the fetch returns none with no request, and both cycles abort
into a wait with no calls. -/
theorem c8_missing_secret_fails_closed_witness :
    psmGetProxmoxState [] (fun _ => none) none none = (none, []) ∧
      afcGetProxmoxState (fun _ => none) none none = (none, []) ∧
      psmCycle "a"
          ⟨some ["psm: a"], [], fun _ => none, none, none, false, none, none⟩
          = (.waited, []) ∧
      afcCycle "a"
          ⟨some ["afc: a", " fabric_name f1"], fun _ => none, none, none,
            false, [], fun _ => none, fun _ => none⟩ = .ok (.waited, []) :=
  ⟨c8_missing_secret_fails_closed.1 [] (fun _ => none) none none rfl rfl rfl,
    c8_missing_secret_fails_closed.2.1 (fun _ => none) none none rfl,
    c8_missing_secret_fails_closed.2.2.1 "a" _ ⟨"psm", []⟩ (by decide) rfl rfl rfl,
    c8_missing_secret_fails_closed.2.2.2 "a" _ ⟨"afc", [("fabric_name", .s "f1")]⟩
      rfl (by decide) rfl⟩

theorem parseStep_err_absorbing (intKeys : List String) :
    ∀ (lines : List String), lines.foldl (parseStep intKeys) .err = .err := by
  intro lines
  induction lines with
  | nil => rfl
  | cons l ls ih => simpa [parseStep] using ih

theorem parseStep_malformed_bool (intKeys : List String) (cfg : PConfig)
    (cid : String) (line : String) (k r : List Char)
    (hik : "enabled" ∉ intKeys ∧ "verify_ssl" ∉ intKeys)
    (h1 : startsWithWs line = true)
    (h2 : pyStrip line ≠ "")
    (h3 : (pyStrip line).data.head? ≠ some '#')
    (h4 : splitWs1 (pyStrip line).data = some (k, r))
    (h5 : String.mk k = "enabled" ∨ String.mk k = "verify_ssl")
    (h6 : pyIntOfStr (String.mk (pyStripL r)) = none)
    (h7 : cid ≠ "") :
    parseStep intKeys (.ok cfg cid) line = .err := by
  simp only [parseStep]
  rw [if_neg (by simp [h2, h3]), if_neg (by simp [h1]), if_neg h7, h4]
  rcases h5 with h5 | h5 <;>
    simp [h5, hik.1, hik.2, boolKeys, h6]

/-- Claim C9: one indented line under an open target section whose key is
boolean-typed (enabled or verify_ssl) and whose value is not an integer
literal makes the whole parse fail, discarding every target: the PSM
parser returns an empty target map (so every worker sees its id as absent
and stops) and the AFC parser exits the process with code 1. -/
theorem c9_malformed_bool_discards_all :
    ∀ (pre post : List String) (line : String) (cfg : PConfig) (cid : String)
      (k r : List Char),
      startsWithWs line = true →
      pyStrip line ≠ "" →
      (pyStrip line).data.head? ≠ some '#' →
      splitWs1 (pyStrip line).data = some (k, r) →
      (String.mk k = "enabled" ∨ String.mk k = "verify_ssl") →
      pyIntOfStr (String.mk (pyStripL r)) = none →
      cid ≠ "" →
      (runParse psmIntKeys pre = .ok cfg cid →
        psmParseLines (pre ++ line :: post) = ⟨[]⟩ ∧
          ∀ id, lookupId (psmParseLines (pre ++ line :: post)) id = none) ∧
      (runParse afcIntKeys pre = .ok cfg cid →
        afcParseLines (pre ++ line :: post) = .error 1) := by
  intro pre post line cfg cid k r h1 h2 h3 h4 h5 h6 h7
  have key : ∀ (intKeys : List String),
      "enabled" ∉ intKeys ∧ "verify_ssl" ∉ intKeys →
      runParse intKeys pre = .ok cfg cid →
      runParse intKeys (pre ++ line :: post) = .err := by
    intro intKeys hik hpre
    unfold runParse at hpre ⊢
    rw [List.foldl_append, hpre, List.foldl_cons,
      parseStep_malformed_bool intKeys cfg cid line k r hik h1 h2 h3 h4 h5 h6 h7,
      parseStep_err_absorbing intKeys post]
  constructor
  · intro hpre
    have herr := key psmIntKeys (by constructor <;> decide) hpre
    constructor
    · unfold psmParseLines
      rw [herr]
    · intro id
      unfold psmParseLines
      rw [herr]
      rfl
  · intro hpre
    have herr := key afcIntKeys (by constructor <;> decide) hpre
    unfold afcParseLines
    rw [herr]

/-- Witness for claim C9: the two-line config psm a with an indented line
enabled yes makes the PSM parser return an empty map and the AFC parser
exit 1. -/
theorem c9_malformed_bool_discards_all_witness :
    psmParseLines ["psm: a", "  enabled yes"] = ⟨[]⟩ ∧
      afcParseLines ["psm: a", "  enabled yes"] = .error 1 := by
  have h := c9_malformed_bool_discards_all ["psm: a"] [] "  enabled yes"
    ⟨[("a", ⟨"psm", []⟩)]⟩ "a" "enabled".data "yes".data
    (by decide) (by decide) (by decide) (by decide) (by decide) (by decide)
    (by decide)
  exact ⟨(h.1 (by decide)).1, h.2 (by decide)⟩

theorem mem_dictInsert (l : List (String × Workload)) (k : String)
    (v : Workload) (x : String × Workload) (hx : x ∈ dictInsert l k v) :
    x ∈ l ∨ x = (k, v) := by
  unfold dictInsert at hx
  split_ifs at hx with h
  · rcases List.mem_map.mp hx with ⟨p, hp, he⟩
    by_cases hpk : p.1 == k
    · right
      rw [← he]
      simp [hpk]
    · left
      rw [← he]
      simpa [hpk] using hp
  · rcases List.mem_append.mp hx with h | h
    · exact Or.inl h
    · right
      simpa using h

theorem buildWorkload_interfaces_pos (node : String) (g : GuestRaw) :
    ∀ i ∈ (buildWorkload node g).interfaces, 0 < i.externalVlan := by
  intro i hi
  unfold buildWorkload at hi
  rcases List.mem_map.mp hi with ⟨raw, hraw, rfl⟩
  simpa using (List.mem_filter.mp hraw).2

theorem discoverGuests_good (node : String) :
    ∀ (gs : List GuestRaw) (acc : List (String × Workload)),
      (∀ x ∈ acc, GoodEntry x) → ∀ x ∈ discoverGuests node gs acc, GoodEntry x := by
  intro gs
  induction gs with
  | nil => intro acc hacc x hx; exact hacc x hx
  | cons g gs ih =>
      intro acc hacc x hx
      have hstep : discoverGuests node (g :: gs) acc =
          discoverGuests node gs
            (if g.vmid = 0 ∨ g.name = "" then acc
             else
              if (buildWorkload node g).interfaces ≠ [] ∧ g.status = "running"
              then dictInsert acc g.name (buildWorkload node g)
              else acc) := rfl
      rw [hstep] at hx
      refine ih _ ?_ x hx
      intro y hy
      split_ifs at hy with hskip hgood
      · exact hacc y hy
      · rcases mem_dictInsert _ _ _ y hy with h | h
        · exact hacc y h
        · refine ⟨?_, ?_, ?_⟩
          · rw [h]
            exact hgood.2
          · rw [h]
            exact hgood.1
          · rw [h]
            exact buildWorkload_interfaces_pos node g
      · exact hacc y hy

theorem discoveryWorkloads_good (nodes : List NodeRaw) :
    ∀ x ∈ discoveryWorkloads nodes, GoodEntry x := by
  unfold discoveryWorkloads
  suffices h : ∀ (ns : List NodeRaw) (acc : List (String × Workload)),
      (∀ x ∈ acc, GoodEntry x) →
      ∀ x ∈ ns.foldl (fun acc nd =>
        if nd.status = "online" then
          discoverGuests nd.name nd.lxcs (discoverGuests nd.name nd.vms acc)
        else acc) acc, GoodEntry x by
    exact h nodes [] (by intro x hx; simp at hx)
  intro ns
  induction ns with
  | nil => intro acc hacc x hx; exact hacc x hx
  | cons nd ns ih =>
      intro acc hacc x hx
      rw [List.foldl_cons] at hx
      refine ih _ ?_ x hx
      split_ifs with hon
      · exact discoverGuests_good nd.name nd.lxcs _
          (discoverGuests_good nd.name nd.vms acc hacc)
      · exact hacc

/-- Claim C10: every workload entry in the discovery snapshot has status
running and a non-empty interface list, and every interface in it carries
a strictly positive external VLAN tag; guests that are not running or
whose interfaces are all untagged never appear. -/
theorem c10_snapshot_invariant :
    ∀ (nodes : List NodeRaw) (k : String) (w : Workload),
      (k, w) ∈ discoveryWorkloads nodes →
      w.status = "running" ∧ w.interfaces ≠ [] ∧
        ∀ i ∈ w.interfaces, 0 < i.externalVlan := by
  intro nodes k w h
  exact discoveryWorkloads_good nodes (k, w) h

/-- Witness for claim C10: a node with one running tagged VM, one stopped
VM and one running untagged VM yields a snapshot with exactly the running
tagged workload, which satisfies the invariant. -/
theorem c10_snapshot_invariant_witness :
    ("vm1", (⟨1, "vm1", "n1", "running", [⟨"AABB.CCDD.EEFF", 100, []⟩]⟩ : Workload)) ∈
        discoveryWorkloads
          [⟨"n1", "online",
            [⟨1, "vm1", "running", [⟨"aa:bb:cc:dd:ee:ff", 100, []⟩, ⟨"m2", -1, []⟩]⟩,
             ⟨2, "vm2", "stopped", [⟨"m3", 5, []⟩]⟩,
             ⟨3, "vm3", "running", [⟨"m4", -1, []⟩]⟩], []⟩] ∧
      (⟨1, "vm1", "n1", "running", [⟨"AABB.CCDD.EEFF", 100, []⟩]⟩ : Workload).status
          = "running" ∧
      (⟨1, "vm1", "n1", "running", [⟨"AABB.CCDD.EEFF", 100, []⟩]⟩ : Workload).interfaces
          ≠ [] ∧
      ∀ i ∈ (⟨1, "vm1", "n1", "running",
        [⟨"AABB.CCDD.EEFF", 100, []⟩]⟩ : Workload).interfaces, 0 < i.externalVlan :=
  ⟨by decide,
    (c10_snapshot_invariant
      [⟨"n1", "online",
        [⟨1, "vm1", "running", [⟨"aa:bb:cc:dd:ee:ff", 100, []⟩, ⟨"m2", -1, []⟩]⟩,
         ⟨2, "vm2", "stopped", [⟨"m3", 5, []⟩]⟩,
         ⟨3, "vm3", "running", [⟨"m4", -1, []⟩]⟩], []⟩]
      "vm1" ⟨1, "vm1", "n1", "running", [⟨"AABB.CCDD.EEFF", 100, []⟩]⟩ (by decide))⟩
